import Mathlib

/-!
Shallow embedding of the Liquid Gold wallet application (`src/app.py`).

Modelling conventions:
* Python `float` money amounts are modelled as exact rationals (`ℚ`); the
  claims under study are exact-arithmetic identities, and the spec treats
  amounts as currency-precision decimals.
* Python `round(x, 2)` is modelled by `round2` (round to the nearest
  multiple of 1/100); the exact tie-breaking behaviour of binary floats is
  immaterial to the claims.
* The SQLAlchemy tables become lists of records inside a single `State`;
  fresh primary keys come from explicit counters.  Random transaction
  reference strings and wall-clock timestamps are produced by external
  collaborators (`secrets`, `datetime`) and are omitted from the records.
* Each Flask endpoint becomes a function `State → args → Except Err State`,
  translated after JSON parsing / `login_required` (the authenticated user
  id is an argument; a missing user yields `Err.notFound`).
* Dates are modelled as integer day numbers so that `today - 1 day` is
  `today - 1`.
-/

namespace LiquidGold

/-- `User` model (`src/app.py`, class `User`).  Columns that no claim
mentions (`bio`, `phone`, `created_at`) are omitted. -/
structure User where
  uid : Nat
  username : String
  email : String
  account_number : String
  balance : ℚ
  savings_balance : ℚ
  tier : String
  xp : Int
  streak : Int
  last_login : Option Int
  total_sent : ℚ
  total_received : ℚ
  total_txn_count : Nat
  deriving Repr, DecidableEq

/-- Transaction `type` column values used by the app. -/
inductive TxnType
  | deposit
  | withdrawal
  | transfer
  | savings
  | split
  deriving Repr, DecidableEq

/-- `Transaction` model (ledger entry).  The random `reference` string and
`created_at` timestamp come from external collaborators and are omitted. -/
structure Txn where
  sender_id : Option Nat
  receiver_id : Option Nat
  amount : ℚ
  fee : ℚ
  txn_type : TxnType
  description : String
  category : String
  deriving Repr, DecidableEq

/-- `Notification` model (title and severity; the formatted message text is
presentation only). -/
structure Notification where
  user_id : Nat
  title : String
  ntype : String
  deriving Repr, DecidableEq

/-- `SavingsGoal` model. -/
structure SavingsGoal where
  gid : Nat
  user_id : Nat
  name : String
  target : ℚ
  current : ℚ
  deriving Repr, DecidableEq

/-- `Contact` model: directed (owner, contact) relation. -/
structure Contact where
  user_id : Nat
  contact_id : Nat
  nickname : String
  deriving Repr, DecidableEq

/-- `ScheduledPayment` model. -/
structure ScheduledPayment where
  spid : Nat
  sender_id : Nat
  receiver_id : Nat
  amount : ℚ
  description : String
  frequency : String
  next_date : String
  active : Bool
  deriving Repr, DecidableEq

/-- `SplitBill` model. -/
structure SplitBill where
  bid : Nat
  creator_id : Nat
  title : String
  total_amount : ℚ
  description : String
  deriving Repr, DecidableEq

/-- `SplitBillMember` model (`paid_at` timestamp omitted). -/
structure SplitBillMember where
  bill_id : Nat
  user_id : Nat
  amount_owed : ℚ
  paid : Bool
  deriving Repr, DecidableEq

/-- One member line of a split-bill creation request
(`{'identifier': ..., 'amount': ...}` in `api_split_create`). -/
structure MemberReq where
  identifier : String
  amount : ℚ
  deriving Repr, DecidableEq

/-- The whole database. -/
structure State where
  users : List User
  ledger : List Txn
  goals : List SavingsGoal
  notifs : List Notification
  contacts : List Contact
  scheduled : List ScheduledPayment
  bills : List SplitBill
  bill_members : List SplitBillMember
  next_goal_id : Nat
  next_bill_id : Nat
  next_sp_id : Nat
  deriving Repr, DecidableEq

/-- Typed versions of the JSON error responses the endpoints return. -/
inductive Err
  | notFound             -- user / goal / recipient lookup failed (404s)
  | amountRange          -- deposit: amount must be between 1 and 100000
  | invalidAmount        -- amount must be positive
  | limitExceeded        -- single transfer limit is 50000
  | identifierRequired   -- recipient identifier required
  | selfReference        -- cannot transfer to / add yourself
  | insufficientBalance  -- insufficient balance
  | insufficientSavings  -- insufficient savings
  | insufficientOrInvalid -- savings deposit: insufficient balance or invalid amount
  | nothingToPay         -- split pay: nothing to pay or already paid
  | alreadyContact       -- contact already exists
  | fieldsRequired       -- required request fields missing
  deriving Repr, DecidableEq

/-- `User.award_xp` tier table, as the top-down break-point scan
`[('diamond', 5000), ('platinum', 2000), ('gold', 800), ('silver', 200)]`
with `bronze` as the fall-through default. -/
def tierOf (xp : Int) : String :=
  if xp ≥ 5000 then "diamond"
  else if xp ≥ 2000 then "platinum"
  else if xp ≥ 800 then "gold"
  else if xp ≥ 200 then "silver"
  else "bronze"

/-- `User.award_xp`: add points, then recompute the tier from the table. -/
def award_xp (u : User) (points : Int) : User :=
  { u with xp := u.xp + points, tier := tierOf (u.xp + points) }

/-- Model of Python `round(q, 2)`: round to the nearest multiple of 1/100
(ties resolved upward; binary-float tie noise is immaterial here). -/
def round2 (q : ℚ) : ℚ := (⌊q * 100 + 1 / 2⌋ : ℤ) / 100

/-- Look up a user by primary key (`db.session.get(User, uid)`). -/
def find_user (s : State) (uid : Nat) : Option User :=
  s.users.find? (fun u => u.uid == uid)

/-- `db.select(User).where((User.email == identifier) |
(User.account_number == identifier))`. -/
def resolve_identifier (s : State) (idf : String) : Option User :=
  s.users.find? (fun u => u.email == idf || u.account_number == idf)

/-- Apply `f` to every stored row of the user with id `uid` (the ORM mutates
the mapped object in place). -/
def update_user (l : List User) (uid : Nat) (f : User → User) : List User :=
  l.map (fun u => if u.uid = uid then f u else u)

/-- `api_deposit`: validate `0 < amount ≤ 100000`, then credit the balance,
bump `total_received`, append a `deposit` ledger entry (receiver only),
award 5 xp and notify. -/
def api_deposit (s : State) (uid : Nat) (amount : ℚ) (method : String) :
    Except Err State :=
  match find_user s uid with
  | none => .error .notFound
  | some _ =>
    if amount ≤ 0 ∨ amount > 100000 then .error .amountRange
    else .ok { s with
      users := update_user s.users uid (fun u =>
        award_xp { u with balance := u.balance + amount,
                          total_received := u.total_received + amount } 5),
      ledger := { sender_id := none, receiver_id := some uid, amount := amount,
                  fee := 0, txn_type := .deposit,
                  description := "Deposit via " ++ method, category := "other" }
                :: s.ledger,
      notifs := { user_id := uid, title := "💰 Deposit Successful",
                  ntype := "success" } :: s.notifs }

/-- `api_withdraw`: validate `amount > 0` and `balance ≥ amount`, then debit
the balance, bump `total_sent`, append a `withdrawal` ledger entry (sender
only) and notify.  No xp is awarded. -/
def api_withdraw (s : State) (uid : Nat) (amount : ℚ) : Except Err State :=
  match find_user s uid with
  | none => .error .notFound
  | some u =>
    if amount ≤ 0 then .error .invalidAmount
    else if u.balance < amount then .error .insufficientBalance
    else .ok { s with
      users := update_user s.users uid (fun v =>
        { v with balance := v.balance - amount,
                 total_sent := v.total_sent + amount }),
      ledger := { sender_id := some uid, receiver_id := none, amount := amount,
                  fee := 0, txn_type := .withdrawal,
                  description := "Withdrawal to bank", category := "other" }
                :: s.ledger,
      notifs := { user_id := uid, title := "🏦 Withdrawal Initiated",
                  ntype := "info" } :: s.notifs }

/-- `api_transfer` fee policy: `round(amount * 0.001, 2) if amount > 1000
else 0.0`. -/
def transfer_fee (amount : ℚ) : ℚ :=
  if amount > 1000 then round2 (amount * (1 / 1000)) else 0

/-- Sender-side account mutation of `api_transfer` (debit `amount + fee`,
bump `total_sent` and `total_txn_count`, award 15 xp). -/
def transfer_sender_upd (amount fee : ℚ) (u : User) : User :=
  award_xp { u with balance := u.balance - (amount + fee),
                    total_sent := u.total_sent + amount,
                    total_txn_count := u.total_txn_count + 1 } 15

/-- Receiver-side account mutation of `api_transfer` (credit `amount`, bump
`total_received` and `total_txn_count`). -/
def transfer_receiver_upd (amount : ℚ) (u : User) : User :=
  { u with balance := u.balance + amount,
           total_received := u.total_received + amount,
           total_txn_count := u.total_txn_count + 1 }

/-- `api_transfer`: validation chain in source order (positive amount,
50000 single-transfer limit, identifier present, recipient resolved,
not self, balance covers `amount + fee`), then the atomic two-account
update, one `transfer` ledger entry carrying the fee, notifications, and
an idempotent contact upsert. -/
def api_transfer (s : State) (uid : Nat) (identifier description category : String)
    (amount : ℚ) : Except Err State :=
  match find_user s uid with
  | none => .error .notFound
  | some sender =>
    if amount ≤ 0 then .error .invalidAmount
    else if amount > 50000 then .error .limitExceeded
    else if identifier = "" then .error .identifierRequired
    else match resolve_identifier s identifier with
      | none => .error .notFound
      | some receiver =>
        if receiver.uid = uid then .error .selfReference
        else if sender.balance < amount + transfer_fee amount then
          .error .insufficientBalance
        else .ok { s with
          users := s.users.map (fun u =>
            if u.uid = uid then transfer_sender_upd amount (transfer_fee amount) u
            else if u.uid = receiver.uid then transfer_receiver_upd amount u
            else u),
          ledger := { sender_id := some uid, receiver_id := some receiver.uid,
                      amount := amount, fee := transfer_fee amount,
                      txn_type := .transfer,
                      description := if description = ""
                                     then "Transfer to " ++ receiver.username
                                     else description,
                      category := category } :: s.ledger,
          notifs := { user_id := uid, title := "✅ Transfer Successful",
                      ntype := "success" }
                    :: { user_id := receiver.uid, title := "💸 Money Received!",
                         ntype := "success" } :: s.notifs,
          contacts := if s.contacts.any
                         (fun c => c.user_id == uid && c.contact_id == receiver.uid)
                      then s.contacts
                      else { user_id := uid, contact_id := receiver.uid,
                             nickname := "" } :: s.contacts }

/-- `SavingsGoal.query.filter_by(id=goal_id, user_id=uid)`. -/
def find_goal (s : State) (gid uid : Nat) : Option SavingsGoal :=
  s.goals.find? (fun g => g.gid == gid && g.user_id == uid)

/-- `api_savings_create`: name and positive target required; creates a goal
with `current = 0`, awards 20 xp, notifies. -/
def api_savings_create (s : State) (uid : Nat) (name : String) (target : ℚ) :
    Except Err State :=
  match find_user s uid with
  | none => .error .notFound
  | some _ =>
    if name = "" ∨ target ≤ 0 then .error .fieldsRequired
    else .ok { s with
      goals := { gid := s.next_goal_id, user_id := uid, name := name,
                 target := target, current := 0 } :: s.goals,
      next_goal_id := s.next_goal_id + 1,
      users := update_user s.users uid (fun u => award_xp u 20),
      notifs := { user_id := uid, title := "🎯 Goal Created!", ntype := "info" }
                :: s.notifs }

/-- `api_savings_deposit`: goal lookup, then `amount ≤ 0 ∨ balance < amount`
rejection; on success moves `amount` from `balance` into `savings_balance`
and `goal.current`, writes a sender-only `savings` ledger entry, awards
10 xp, and — whenever the updated `current` is ≥ `target` — emits the
"Goal Achieved" notification and awards 100 bonus xp. -/
def api_savings_deposit (s : State) (uid goal_id : Nat) (amount : ℚ) :
    Except Err State :=
  match find_user s uid with
  | none => .error .notFound
  | some u =>
    match find_goal s goal_id uid with
    | none => .error .notFound
    | some g =>
      if amount ≤ 0 ∨ u.balance < amount then .error .insufficientOrInvalid
      else .ok { s with
        users := update_user s.users uid (fun v =>
          let v1 := award_xp { v with balance := v.balance - amount,
                                      savings_balance := v.savings_balance + amount } 10
          if g.current + amount ≥ g.target then award_xp v1 100 else v1),
        goals := s.goals.map (fun h =>
          if h.gid = goal_id ∧ h.user_id = uid
          then { h with current := h.current + amount } else h),
        ledger := { sender_id := some uid, receiver_id := none, amount := amount,
                    fee := 0, txn_type := .savings,
                    description := "Savings: " ++ g.name, category := "other" }
                  :: s.ledger,
        notifs := if g.current + amount ≥ g.target
                  then { user_id := uid, title := "🏆 Goal Achieved!",
                         ntype := "success" } :: s.notifs
                  else s.notifs }

/-- `api_savings_withdraw`: source checks only `not g or g.current < amount`
(there is no positivity check on `amount`); on success moves `amount` from
`savings_balance`/`goal.current` back to `balance`.  No ledger entry, no xp,
no notification are produced. -/
def api_savings_withdraw (s : State) (uid goal_id : Nat) (amount : ℚ) :
    Except Err State :=
  match find_user s uid with
  | none => .error .notFound
  | some _ =>
    match find_goal s goal_id uid with
    | none => .error .insufficientSavings
    | some g =>
      if g.current < amount then .error .insufficientSavings
      else .ok { s with
        users := update_user s.users uid (fun v =>
          { v with balance := v.balance + amount,
                   savings_balance := v.savings_balance - amount }),
        goals := s.goals.map (fun h =>
          if h.gid = goal_id ∧ h.user_id = uid
          then { h with current := h.current - amount } else h) }

/-- `api_savings_delete`: if the goal holds a positive `current`, return it
to `balance` (and deduct it from `savings_balance`), then drop the goal. -/
def api_savings_delete (s : State) (uid goal_id : Nat) : Except Err State :=
  match find_user s uid with
  | none => .error .notFound
  | some _ =>
    match find_goal s goal_id uid with
    | none => .error .notFound
    | some g =>
      .ok { s with
        users := if g.current > 0
                 then update_user s.users uid (fun v =>
                   { v with balance := v.balance + g.current,
                            savings_balance := v.savings_balance - g.current })
                 else s.users,
        goals := s.goals.filter
          (fun h => !(h.gid == goal_id && h.user_id == uid)) }

/-- `api_sched_create`: all fields required, recipient resolved; creates an
active `ScheduledPayment` and awards 10 xp.  No money moves. -/
def api_sched_create (s : State) (uid : Nat) (identifier : String) (amount : ℚ)
    (frequency next_date description : String) : Except Err State :=
  match find_user s uid with
  | none => .error .notFound
  | some _ =>
    if identifier = "" ∨ amount ≤ 0 ∨ next_date = "" then .error .fieldsRequired
    else match resolve_identifier s identifier with
      | none => .error .notFound
      | some receiver =>
        .ok { s with
          scheduled := { spid := s.next_sp_id, sender_id := uid,
                         receiver_id := receiver.uid, amount := amount,
                         description := description, frequency := frequency,
                         next_date := next_date, active := true } :: s.scheduled,
          next_sp_id := s.next_sp_id + 1,
          users := update_user s.users uid (fun u => award_xp u 10) }

/-- `api_sched_delete`: soft delete — flips `active` to false on the caller's
own scheduled payment. -/
def api_sched_delete (s : State) (uid sid : Nat) : Except Err State :=
  match s.scheduled.find? (fun p => p.spid == sid && p.sender_id == uid) with
  | none => .error .notFound
  | some _ =>
    .ok { s with
      scheduled := s.scheduled.map (fun p =>
        if p.spid = sid ∧ p.sender_id = uid then { p with active := false } else p) }

/-- `api_contact_add`: identifier required, resolved, not self, not already
present; inserts the directed contact row. -/
def api_contact_add (s : State) (uid : Nat) (identifier nickname : String) :
    Except Err State :=
  match find_user s uid with
  | none => .error .notFound
  | some _ =>
    if identifier = "" then .error .fieldsRequired
    else match resolve_identifier s identifier with
      | none => .error .notFound
      | some u =>
        if u.uid = uid then .error .selfReference
        else if s.contacts.any (fun c => c.user_id == uid && c.contact_id == u.uid)
        then .error .alreadyContact
        else .ok { s with
          contacts := { user_id := uid, contact_id := u.uid, nickname := nickname }
                      :: s.contacts }

/-- `api_split_create`: title, positive total and a non-empty member list
required.  Creates the bill, a creator member row with `amount_owed = 0`
and `paid = true`, and — for each member whose identifier resolves — an
unpaid member row carrying the requested amount verbatim plus a
notification.  Unresolved identifiers are silently skipped.  Awards 15 xp. -/
def api_split_create (s : State) (uid : Nat) (title : String) (total : ℚ)
    (members : List MemberReq) (description : String) : Except Err State :=
  match find_user s uid with
  | none => .error .notFound
  | some _ =>
    if title = "" ∨ total ≤ 0 ∨ members = [] then .error .fieldsRequired
    else .ok { s with
      bills := { bid := s.next_bill_id, creator_id := uid, title := title,
                 total_amount := total, description := description } :: s.bills,
      next_bill_id := s.next_bill_id + 1,
      bill_members :=
        ({ bill_id := s.next_bill_id, user_id := uid, amount_owed := 0,
           paid := true } : SplitBillMember)
        :: (members.filterMap (fun m =>
              (resolve_identifier s m.identifier).map (fun u =>
                ({ bill_id := s.next_bill_id, user_id := u.uid,
                   amount_owed := m.amount, paid := false } : SplitBillMember))))
        ++ s.bill_members,
      notifs := (members.filterMap (fun m =>
                  (resolve_identifier s m.identifier).map (fun u =>
                    ({ user_id := u.uid, title := "🧾 Split Bill",
                       ntype := "warning" } : Notification))))
                ++ s.notifs,
      users := update_user s.users uid (fun u => award_xp u 15) }

/-- `api_split_pay`: finds the caller's own unpaid member row, checks the
balance against its `amount_owed`, then moves that amount from the payer to
the bill's creator (the ORM identity map makes a creator paying their own
extra share a net no-op on the shared row), appends a fee-free `split`
ledger entry, marks the row paid and notifies the creator.  `total_sent`,
`total_received` and `total_txn_count` are not touched. -/
def api_split_pay (s : State) (uid bill_id : Nat) : Except Err State :=
  match s.bill_members.find?
      (fun m => m.bill_id == bill_id && m.user_id == uid && !m.paid) with
  | none => .error .nothingToPay
  | some membership =>
    match s.bills.find? (fun b => b.bid == bill_id) with
    | none => .error .notFound  -- unreachable under referential integrity
    | some bill =>
      match find_user s uid with
      | none => .error .notFound
      | some payer =>
        if payer.balance < membership.amount_owed then .error .insufficientBalance
        else .ok { s with
          users := s.users.map (fun u =>
            if u.uid = uid then
              (if uid = bill.creator_id then u
               else { u with balance := u.balance - membership.amount_owed })
            else if u.uid = bill.creator_id then
              { u with balance := u.balance + membership.amount_owed }
            else u),
          ledger := { sender_id := some uid, receiver_id := some bill.creator_id,
                      amount := membership.amount_owed, fee := 0,
                      txn_type := .split, description := "Split: " ++ bill.title,
                      category := "other" } :: s.ledger,
          bill_members := s.bill_members.map (fun m =>
            if m.bill_id = bill_id ∧ m.user_id = uid ∧ m.paid = false
            then { m with paid := true } else m),
          notifs := { user_id := bill.creator_id, title := "💸 Split Payment",
                      ntype := "success" } :: s.notifs }

/-- Streak transition of the existing-user branch of `oauth2_callback`
(lines 373–386): consecutive day → `streak += 1`, 10 xp, plus 50 bonus xp
when the new streak is a multiple of 7; same day → unchanged; anything else
(including a stored date in the future) → `streak = 1`; `last_login` is
always set to `today`. -/
def login_streak_upd (today : Int) (v : User) : User :=
  if v.last_login = some (today - 1) then
    let v1 := award_xp { v with streak := v.streak + 1 } 10
    let v2 := if v1.streak % 7 = 0 then award_xp v1 50 else v1
    { v2 with last_login := some today }
  else if v.last_login ≠ some today then
    { v with streak := 1, last_login := some today }
  else
    { v with last_login := some today }

/-- Existing-user login (`oauth2_callback`, else-branch): applies the streak
transition and emits the 7-day milestone notification when it fires. -/
def api_login (s : State) (uid : Nat) (today : Int) : Except Err State :=
  match find_user s uid with
  | none => .error .notFound
  | some u =>
    .ok { s with
      users := update_user s.users uid (login_streak_upd today),
      notifs := if u.last_login = some (today - 1) ∧ (u.streak + 1) % 7 = 0
                then { user_id := uid, title := "🔥 Streak!", ntype := "success" }
                  :: s.notifs
                else s.notifs }

/-- `api_delete_account`: manual deletes of received transactions and of the
user's split-bill member rows, then the ORM cascades (sent transactions,
notifications, savings goals, owned contacts, sender-side scheduled
payments) and the user row itself.  Contact rows of other users pointing at
this account, scheduled payments naming it as receiver, and split bills it
created are not touched. -/
def api_delete_account (s : State) (uid : Nat) : Except Err State :=
  match find_user s uid with
  | none => .error .notFound
  | some _ =>
    .ok { s with
      users := s.users.filter (fun u => u.uid != uid),
      ledger := s.ledger.filter
        (fun t => t.receiver_id != some uid && t.sender_id != some uid),
      goals := s.goals.filter (fun g => g.user_id != uid),
      notifs := s.notifs.filter (fun n => n.user_id != uid),
      contacts := s.contacts.filter (fun c => c.user_id != uid),
      scheduled := s.scheduled.filter (fun p => p.sender_id != uid),
      bill_members := s.bill_members.filter (fun m => m.user_id != uid) }

/-- One request against the engine. -/
inductive Op
  | deposit (uid : Nat) (amount : ℚ) (method : String)
  | withdraw (uid : Nat) (amount : ℚ)
  | transfer (uid : Nat) (identifier description category : String) (amount : ℚ)
  | savingsCreate (uid : Nat) (name : String) (target : ℚ)
  | savingsDeposit (uid goal_id : Nat) (amount : ℚ)
  | savingsWithdraw (uid goal_id : Nat) (amount : ℚ)
  | savingsDelete (uid goal_id : Nat)
  | schedCreate (uid : Nat) (identifier : String) (amount : ℚ)
      (frequency next_date description : String)
  | schedDelete (uid sid : Nat)
  | splitCreate (uid : Nat) (title : String) (total : ℚ)
      (members : List MemberReq) (description : String)
  | splitPay (uid bill_id : Nat)
  | contactAdd (uid : Nat) (identifier nickname : String)
  | login (uid : Nat) (today : Int)
  | deleteAccount (uid : Nat)
  deriving Repr

/-- Dispatch one operation. -/
def apply_op (s : State) : Op → Except Err State
  | .deposit uid amount method => api_deposit s uid amount method
  | .withdraw uid amount => api_withdraw s uid amount
  | .transfer uid idf desc cat amount => api_transfer s uid idf desc cat amount
  | .savingsCreate uid name target => api_savings_create s uid name target
  | .savingsDeposit uid gid amount => api_savings_deposit s uid gid amount
  | .savingsWithdraw uid gid amount => api_savings_withdraw s uid gid amount
  | .savingsDelete uid gid => api_savings_delete s uid gid
  | .schedCreate uid idf amount freq nd desc =>
      api_sched_create s uid idf amount freq nd desc
  | .schedDelete uid sid => api_sched_delete s uid sid
  | .splitCreate uid title total members desc =>
      api_split_create s uid title total members desc
  | .splitPay uid bid => api_split_pay s uid bid
  | .contactAdd uid idf nick => api_contact_add s uid idf nick
  | .login uid today => api_login s uid today
  | .deleteAccount uid => api_delete_account s uid

/-- A rejected request leaves the state unchanged (the endpoint returns an
error response without committing). -/
def run_op (s : State) (op : Op) : State :=
  match apply_op s op with
  | .ok s' => s'
  | .error _ => s

/-- Run a whole request sequence. -/
def run_ops (s : State) (ops : List Op) : State := ops.foldl run_op s

/-- `true` iff the request commits (returns a success payload). -/
def op_ok (s : State) (op : Op) : Bool :=
  match apply_op s op with
  | .ok _ => true
  | .error _ => false

/-- Sum of `amount` over ledger entries whose sender is `uid`. -/
def sent_sum (l : List Txn) (uid : Nat) : ℚ :=
  ((l.filter (fun t => t.sender_id == some uid)).map Txn.amount).sum

/-- Sum of `amount` over ledger entries whose receiver is `uid`. -/
def recv_sum (l : List Txn) (uid : Nat) : ℚ :=
  ((l.filter (fun t => t.receiver_id == some uid)).map Txn.amount).sum

/-- Ledger-account reconciliation invariant: every account's running totals
agree with the ledger. -/
def reconciled (s : State) : Prop :=
  ∀ u ∈ s.users, u.total_sent = sent_sum s.ledger u.uid ∧
    u.total_received = recv_sum s.ledger u.uid

/-- Number of savings-milestone ("Goal Achieved") notifications stored for
`uid`. -/
def milestone_count (s : State) (uid : Nat) : Nat :=
  (s.notifs.filter (fun n => n.user_id == uid && n.title == "🏆 Goal Achieved!")).length

/-- Number of 7-day-streak milestone notifications stored for `uid`. -/
def streak_milestone_count (s : State) (uid : Nat) : Nat :=
  (s.notifs.filter (fun n => n.user_id == uid && n.title == "🔥 Streak!")).length

/-- A user row with the column defaults of the `users` table. -/
def mkUser (uid : Nat) (email acct : String) (balance : ℚ) : User :=
  { uid := uid, username := email, email := email, account_number := acct,
    balance := balance, savings_balance := 0, tier := "bronze", xp := 0,
    streak := 0, last_login := none, total_sent := 0, total_received := 0,
    total_txn_count := 0 }

/-- Empty database. -/
def empty_state : State :=
  { users := [], ledger := [], goals := [], notifs := [], contacts := [],
    scheduled := [], bills := [], bill_members := [], next_goal_id := 1,
    next_bill_id := 1, next_sp_id := 1 }

/-- Pointwise obligation relating a stored user row to its value after one
operation: same id, no xp loss, tier consistency maintained. -/
def good (u v : User) : Prop :=
  v.uid = u.uid ∧ u.xp ≤ v.xp ∧ (u.tier = tierOf u.xp → v.tier = tierOf v.xp)

/-- Every user row after the step descends from a same-id row before it,
without losing xp or tier consistency. -/
def users_good (a b : State) : Prop := ∀ v ∈ b.users, ∃ u ∈ a.users, good u v

/-- All stored tiers agree with the pure tier function of the stored xp. -/
def tier_consistent (s : State) : Prop := ∀ u ∈ s.users, u.tier = tierOf u.xp

/-- Frame relation: every user row after the step descends from a same-id
row with the same `total_txn_count`. -/
def txn_frame (a b : State) : Prop :=
  ∀ v ∈ b.users, ∃ u ∈ a.users,
    u.uid = v.uid ∧ u.total_txn_count = v.total_txn_count

/-- Deposit / Withdraw / Transfer requests (the operations that maintain the
running totals alongside their ledger writes). -/
def dwt_op : Op → Prop
  | .deposit _ _ _ => True
  | .withdraw _ _ => True
  | .transfer _ _ _ _ _ => True
  | _ => False

/-- Two fresh accounts: 0 (balance 2000) and 1 (balance 500). -/
def base2 : State :=
  { empty_state with
    users := [mkUser 0 "a@x" "LG0" 2000, mkUser 1 "b@x" "LG1" 500] }

/-- Account 0 with balance 1000 next to account 1 (concrete scenario 1). -/
def fresh1000 : State :=
  { empty_state with
    users := [mkUser 0 "a@x" "LG0" 1000, mkUser 1 "b@x" "LG1" 500] }

/-- Account 0 with balance 500 and a goal at 900 of a 1000 target
(concrete scenario 4). -/
def goal900 : State :=
  { empty_state with
    users := [mkUser 0 "a@x" "LG0" 500],
    goals := [{ gid := 1, user_id := 0, name := "trip", target := 1000,
                current := 900 }],
    next_goal_id := 2 }

/-- Account 0 with balance 0 and an empty goal: exposes the missing amount
check of `api_savings_withdraw`. -/
def empty_goal_state : State :=
  { empty_state with
    users := [mkUser 0 "a@x" "LG0" 0],
    goals := [{ gid := 1, user_id := 0, name := "g", target := 500,
                current := 0 }],
    next_goal_id := 2 }

/-- Account 1 owes 50 on a bill created by account 0. -/
def bill_state : State :=
  { empty_state with
    users := [mkUser 0 "a@x" "LG0" 100, mkUser 1 "b@x" "LG1" 100],
    bills := [{ bid := 1, creator_id := 0, title := "dinner",
                total_amount := 50, description := "" }],
    bill_members := [{ bill_id := 1, user_id := 0, amount_owed := 0,
                       paid := true },
                     { bill_id := 1, user_id := 1, amount_owed := 50,
                       paid := false }],
    next_bill_id := 2 }

/-- Records held by account 1 that reference account 0, plus a bill created
by account 0: exercises the account-deletion cleanup. -/
def delete_state : State :=
  { empty_state with
    users := [mkUser 0 "a@x" "LG0" 100, mkUser 1 "b@x" "LG1" 100],
    contacts := [{ user_id := 1, contact_id := 0, nickname := "" },
                 { user_id := 0, contact_id := 1, nickname := "" }],
    scheduled := [{ spid := 1, sender_id := 1, receiver_id := 0, amount := 5,
                    description := "", frequency := "monthly",
                    next_date := "2026-01-01", active := true }],
    bills := [{ bid := 1, creator_id := 0, title := "trip",
                total_amount := 90, description := "" }],
    bill_members := [{ bill_id := 1, user_id := 0, amount_owed := 0,
                       paid := true },
                     { bill_id := 1, user_id := 1, amount_owed := 90,
                       paid := false }],
    next_bill_id := 2,
    next_sp_id := 2 }

/-- Account 0 whose stored `last_login` (day 10) lies in the future of
`today = 5`. -/
def future_user : User :=
  { uid := 0, username := "a@x", email := "a@x", account_number := "LG0",
    balance := 100, savings_balance := 0, tier := "bronze", xp := 0,
    streak := 3, last_login := some 10, total_sent := 0, total_received := 0,
    total_txn_count := 0 }

def future_login_state : State :=
  { empty_state with users := [future_user] }

/-- Account 0 with a streak of 6 that last logged in yesterday (day 4): the
next login on day 5 reaches streak 7 and fires the weekly milestone. -/
def streak6_user : User :=
  { uid := 0, username := "a@x", email := "a@x", account_number := "LG0",
    balance := 100, savings_balance := 0, tier := "bronze", xp := 0,
    streak := 6, last_login := some 4, total_sent := 0, total_received := 0,
    total_txn_count := 0 }

def streak6_state : State :=
  { empty_state with users := [streak6_user] }

theorem good_refl (u : User) : good u u := ⟨rfl, le_refl _, fun h => h⟩

theorem good_trans {a b c : User} (h1 : good a b) (h2 : good b c) : good a c :=
  ⟨h2.1.trans h1.1, h1.2.1.trans h2.2.1, fun h => h2.2.2 (h1.2.2 h)⟩

/-- `award_xp` with a non-negative constant satisfies `good` relative to any
row that differs only in fields other than `uid`, `xp`, `tier`. -/
theorem good_award_xp {u v : User} (c : Int) (hc : 0 ≤ c)
    (huid : v.uid = u.uid) (hxp : v.xp = u.xp) : good u (award_xp v c) := by
  refine ⟨huid, ?_, fun _ => rfl⟩
  simp only [award_xp, hxp]
  omega

/-- Rows produced by a pointwise-`good` rewrite descend from the original
list. -/
theorem good_map {l : List User} {f : User → User} (hf : ∀ u, good u (f u)) :
    ∀ v ∈ l.map f, ∃ u ∈ l, good u v := by
  intro v hv
  rcases List.mem_map.mp hv with ⟨u, hu, rfl⟩
  exact ⟨u, hu, hf u⟩

theorem good_filter {l : List User} {p : User → Bool} :
    ∀ v ∈ l.filter p, ∃ u ∈ l, good u v :=
  fun v hv => ⟨v, List.mem_of_mem_filter hv, good_refl v⟩

theorem good_id {l : List User} : ∀ v ∈ l, ∃ u ∈ l, good u v :=
  fun v hv => ⟨v, hv, good_refl v⟩

theorem users_good_trans {a b c : State} (h1 : users_good a b)
    (h2 : users_good b c) : users_good a c := by
  intro v hv
  rcases h2 v hv with ⟨w, hw, hwv⟩
  rcases h1 w hw with ⟨u, hu, huw⟩
  exact ⟨u, hu, good_trans huw hwv⟩

/-! ### Success-case characterizations of the endpoints -/

theorem api_deposit_ok {s s' : State} {uid : Nat} {amount : ℚ} {method : String}
    (h : api_deposit s uid amount method = .ok s') :
    s' = { s with
      users := update_user s.users uid (fun u =>
        award_xp { u with balance := u.balance + amount,
                          total_received := u.total_received + amount } 5),
      ledger := { sender_id := none, receiver_id := some uid, amount := amount,
                  fee := 0, txn_type := .deposit,
                  description := "Deposit via " ++ method, category := "other" }
                :: s.ledger,
      notifs := { user_id := uid, title := "💰 Deposit Successful",
                  ntype := "success" } :: s.notifs } := by
  unfold api_deposit at h
  split at h
  · cases h
  · split at h
    · cases h
    · exact (Except.ok.inj h).symm

theorem api_withdraw_ok {s s' : State} {uid : Nat} {amount : ℚ}
    (h : api_withdraw s uid amount = .ok s') :
    ∃ u, find_user s uid = some u ∧ 0 < amount ∧ amount ≤ u.balance ∧
      s' = { s with
        users := update_user s.users uid (fun v =>
          { v with balance := v.balance - amount,
                   total_sent := v.total_sent + amount }),
        ledger := { sender_id := some uid, receiver_id := none, amount := amount,
                    fee := 0, txn_type := .withdrawal,
                    description := "Withdrawal to bank", category := "other" }
                  :: s.ledger,
        notifs := { user_id := uid, title := "🏦 Withdrawal Initiated",
                    ntype := "info" } :: s.notifs } := by
  unfold api_withdraw at h
  split at h
  · cases h
  next u hu =>
    split at h
    · cases h
    split at h
    · cases h
    next hpos hbal =>
      exact ⟨u, hu, by linarith, by linarith, (Except.ok.inj h).symm⟩

theorem api_transfer_ok {s s' : State} {uid : Nat}
    {identifier description category : String} {amount : ℚ}
    (h : api_transfer s uid identifier description category amount = .ok s') :
    ∃ sender receiver, find_user s uid = some sender ∧
      resolve_identifier s identifier = some receiver ∧
      receiver.uid ≠ uid ∧ 0 < amount ∧ amount ≤ 50000 ∧
      amount + transfer_fee amount ≤ sender.balance ∧
      s' = { s with
        users := s.users.map (fun u =>
          if u.uid = uid then transfer_sender_upd amount (transfer_fee amount) u
          else if u.uid = receiver.uid then transfer_receiver_upd amount u
          else u),
        ledger := { sender_id := some uid, receiver_id := some receiver.uid,
                    amount := amount, fee := transfer_fee amount,
                    txn_type := .transfer,
                    description := if description = ""
                                   then "Transfer to " ++ receiver.username
                                   else description,
                    category := category } :: s.ledger,
        notifs := { user_id := uid, title := "✅ Transfer Successful",
                    ntype := "success" }
                  :: { user_id := receiver.uid, title := "💸 Money Received!",
                       ntype := "success" } :: s.notifs,
        contacts := if s.contacts.any
                       (fun c => c.user_id == uid && c.contact_id == receiver.uid)
                    then s.contacts
                    else { user_id := uid, contact_id := receiver.uid,
                           nickname := "" } :: s.contacts } := by
  unfold api_transfer at h
  split at h
  · cases h
  next sender hsender =>
    split at h
    · cases h
    split at h
    · cases h
    split at h
    · cases h
    split at h
    · cases h
    next receiver hreceiver =>
      split at h
      · cases h
      split at h
      · cases h
      next hne hbal =>
        exact ⟨sender, receiver, hsender, hreceiver, hne, by linarith,
               by linarith, by linarith, (Except.ok.inj h).symm⟩

theorem api_savings_create_ok {s s' : State} {uid : Nat} {name : String}
    {target : ℚ} (h : api_savings_create s uid name target = .ok s') :
    s' = { s with
      goals := { gid := s.next_goal_id, user_id := uid, name := name,
                 target := target, current := 0 } :: s.goals,
      next_goal_id := s.next_goal_id + 1,
      users := update_user s.users uid (fun u => award_xp u 20),
      notifs := { user_id := uid, title := "🎯 Goal Created!", ntype := "info" }
                :: s.notifs } := by
  unfold api_savings_create at h
  split at h
  · cases h
  split at h
  · cases h
  exact (Except.ok.inj h).symm

theorem api_savings_deposit_ok {s s' : State} {uid goal_id : Nat} {amount : ℚ}
    (h : api_savings_deposit s uid goal_id amount = .ok s') :
    ∃ u g, find_user s uid = some u ∧ find_goal s goal_id uid = some g ∧
      0 < amount ∧ amount ≤ u.balance ∧
      s' = { s with
        users := update_user s.users uid (fun v =>
          let v1 := award_xp { v with balance := v.balance - amount,
                                      savings_balance := v.savings_balance + amount } 10
          if g.current + amount ≥ g.target then award_xp v1 100 else v1),
        goals := s.goals.map (fun h =>
          if h.gid = goal_id ∧ h.user_id = uid
          then { h with current := h.current + amount } else h),
        ledger := { sender_id := some uid, receiver_id := none, amount := amount,
                    fee := 0, txn_type := .savings,
                    description := "Savings: " ++ g.name, category := "other" }
                  :: s.ledger,
        notifs := if g.current + amount ≥ g.target
                  then { user_id := uid, title := "🏆 Goal Achieved!",
                         ntype := "success" } :: s.notifs
                  else s.notifs } := by
  unfold api_savings_deposit at h
  split at h
  · cases h
  next u hu =>
    split at h
    · cases h
    next g hg =>
      split at h
      · cases h
      next hcond =>
        push_neg at hcond
        exact ⟨u, g, hu, hg, hcond.1, le_of_not_lt (not_lt.mpr hcond.2),
               (Except.ok.inj h).symm⟩

theorem api_savings_withdraw_ok {s s' : State} {uid goal_id : Nat} {amount : ℚ}
    (h : api_savings_withdraw s uid goal_id amount = .ok s') :
    ∃ g, find_goal s goal_id uid = some g ∧ amount ≤ g.current ∧
      s' = { s with
        users := update_user s.users uid (fun v =>
          { v with balance := v.balance + amount,
                   savings_balance := v.savings_balance - amount }),
        goals := s.goals.map (fun h =>
          if h.gid = goal_id ∧ h.user_id = uid
          then { h with current := h.current - amount } else h) } := by
  unfold api_savings_withdraw at h
  split at h
  · cases h
  split at h
  · cases h
  next g hg =>
    split at h
    · cases h
    next hcur =>
      exact ⟨g, hg, le_of_not_lt hcur, (Except.ok.inj h).symm⟩

theorem api_savings_delete_ok {s s' : State} {uid goal_id : Nat}
    (h : api_savings_delete s uid goal_id = .ok s') :
    ∃ g, find_goal s goal_id uid = some g ∧
      s' = { s with
        users := if g.current > 0
                 then update_user s.users uid (fun v =>
                   { v with balance := v.balance + g.current,
                            savings_balance := v.savings_balance - g.current })
                 else s.users,
        goals := s.goals.filter
          (fun h => !(h.gid == goal_id && h.user_id == uid)) } := by
  unfold api_savings_delete at h
  split at h
  · cases h
  split at h
  · cases h
  next g hg => exact ⟨g, hg, (Except.ok.inj h).symm⟩

theorem api_sched_create_ok {s s' : State} {uid : Nat} {identifier : String}
    {amount : ℚ} {frequency next_date description : String}
    (h : api_sched_create s uid identifier amount frequency next_date description
         = .ok s') :
    ∃ receiver, resolve_identifier s identifier = some receiver ∧
      s' = { s with
        scheduled := { spid := s.next_sp_id, sender_id := uid,
                       receiver_id := receiver.uid, amount := amount,
                       description := description, frequency := frequency,
                       next_date := next_date, active := true } :: s.scheduled,
        next_sp_id := s.next_sp_id + 1,
        users := update_user s.users uid (fun u => award_xp u 10) } := by
  unfold api_sched_create at h
  split at h
  · cases h
  split at h
  · cases h
  split at h
  · cases h
  next receiver hreceiver => exact ⟨receiver, hreceiver, (Except.ok.inj h).symm⟩

theorem api_sched_delete_ok {s s' : State} {uid sid : Nat}
    (h : api_sched_delete s uid sid = .ok s') :
    s' = { s with
      scheduled := s.scheduled.map (fun p =>
        if p.spid = sid ∧ p.sender_id = uid then { p with active := false }
        else p) } := by
  unfold api_sched_delete at h
  split at h
  · cases h
  exact (Except.ok.inj h).symm

theorem api_split_create_ok {s s' : State} {uid : Nat} {title : String}
    {total : ℚ} {members : List MemberReq} {description : String}
    (h : api_split_create s uid title total members description = .ok s') :
    s' = { s with
      bills := { bid := s.next_bill_id, creator_id := uid, title := title,
                 total_amount := total, description := description } :: s.bills,
      next_bill_id := s.next_bill_id + 1,
      bill_members :=
        ({ bill_id := s.next_bill_id, user_id := uid, amount_owed := 0,
           paid := true } : SplitBillMember)
        :: (members.filterMap (fun m =>
              (resolve_identifier s m.identifier).map (fun u =>
                ({ bill_id := s.next_bill_id, user_id := u.uid,
                   amount_owed := m.amount, paid := false } : SplitBillMember))))
        ++ s.bill_members,
      notifs := (members.filterMap (fun m =>
                  (resolve_identifier s m.identifier).map (fun u =>
                    ({ user_id := u.uid, title := "🧾 Split Bill",
                       ntype := "warning" } : Notification))))
                ++ s.notifs,
      users := update_user s.users uid (fun u => award_xp u 15) } := by
  unfold api_split_create at h
  split at h
  · cases h
  split at h
  · cases h
  exact (Except.ok.inj h).symm

theorem api_split_pay_ok {s s' : State} {uid bill_id : Nat}
    (h : api_split_pay s uid bill_id = .ok s') :
    ∃ membership bill payer,
      s.bill_members.find?
        (fun m => m.bill_id == bill_id && m.user_id == uid && !m.paid)
        = some membership ∧
      s.bills.find? (fun b => b.bid == bill_id) = some bill ∧
      find_user s uid = some payer ∧
      membership.amount_owed ≤ payer.balance ∧
      s' = { s with
        users := s.users.map (fun u =>
          if u.uid = uid then
            (if uid = bill.creator_id then u
             else { u with balance := u.balance - membership.amount_owed })
          else if u.uid = bill.creator_id then
            { u with balance := u.balance + membership.amount_owed }
          else u),
        ledger := { sender_id := some uid, receiver_id := some bill.creator_id,
                    amount := membership.amount_owed, fee := 0,
                    txn_type := .split, description := "Split: " ++ bill.title,
                    category := "other" } :: s.ledger,
        bill_members := s.bill_members.map (fun m =>
          if m.bill_id = bill_id ∧ m.user_id = uid ∧ m.paid = false
          then { m with paid := true } else m),
        notifs := { user_id := bill.creator_id, title := "💸 Split Payment",
                    ntype := "success" } :: s.notifs } := by
  unfold api_split_pay at h
  split at h
  · cases h
  next membership hm =>
    split at h
    · cases h
    next bill hb =>
      split at h
      · cases h
      next payer hp =>
        split at h
        · cases h
        next hbal =>
          exact ⟨membership, bill, payer, hm, hb, hp, le_of_not_lt hbal,
                 (Except.ok.inj h).symm⟩

theorem api_contact_add_ok {s s' : State} {uid : Nat}
    {identifier nickname : String}
    (h : api_contact_add s uid identifier nickname = .ok s') :
    ∃ u, resolve_identifier s identifier = some u ∧ u.uid ≠ uid ∧
      s' = { s with
        contacts := { user_id := uid, contact_id := u.uid, nickname := nickname }
                    :: s.contacts } := by
  unfold api_contact_add at h
  split at h
  · cases h
  split at h
  · cases h
  split at h
  · cases h
  next u hu =>
    split at h
    · cases h
    split at h
    · cases h
    next hne _ => exact ⟨u, hu, hne, (Except.ok.inj h).symm⟩

theorem api_login_ok {s s' : State} {uid : Nat} {today : Int}
    (h : api_login s uid today = .ok s') :
    ∃ u, find_user s uid = some u ∧
      s' = { s with
        users := update_user s.users uid (login_streak_upd today),
        notifs := if u.last_login = some (today - 1) ∧ (u.streak + 1) % 7 = 0
                  then { user_id := uid, title := "🔥 Streak!",
                         ntype := "success" } :: s.notifs
                  else s.notifs } := by
  unfold api_login at h
  split at h
  · cases h
  next u hu => exact ⟨u, hu, (Except.ok.inj h).symm⟩

theorem api_delete_account_ok {s s' : State} {uid : Nat}
    (h : api_delete_account s uid = .ok s') :
    s' = { s with
      users := s.users.filter (fun u => u.uid != uid),
      ledger := s.ledger.filter
        (fun t => t.receiver_id != some uid && t.sender_id != some uid),
      goals := s.goals.filter (fun g => g.user_id != uid),
      notifs := s.notifs.filter (fun n => n.user_id != uid),
      contacts := s.contacts.filter (fun c => c.user_id != uid),
      scheduled := s.scheduled.filter (fun p => p.sender_id != uid),
      bill_members := s.bill_members.filter (fun m => m.user_id != uid) } := by
  unfold api_delete_account at h
  split at h
  · cases h
  exact (Except.ok.inj h).symm

/-! ### xp / tier step lemmas -/

theorem good_update_user {l : List User} {uid : Nat} {f : User → User}
    (hf : ∀ u, good u (f u)) : ∀ v ∈ update_user l uid f, ∃ u ∈ l, good u v := by
  unfold update_user
  apply good_map
  intro u
  dsimp only
  split
  · exact hf u
  · exact good_refl u

/-- A row rewrite that leaves `uid`, `xp` and `tier` alone is `good`. -/
theorem good_keep_gamification {u v : User} (huid : v.uid = u.uid)
    (hxp : v.xp = u.xp) (htier : v.tier = u.tier) : good u v := by
  refine ⟨huid, le_of_eq hxp.symm, fun h => ?_⟩
  rw [htier, hxp, h]

theorem good_login_streak_upd (today : Int) (u : User) :
    good u (login_streak_upd today u) := by
  unfold login_streak_upd
  split
  · refine good_trans (b := if (award_xp { u with streak := u.streak + 1 } 10).streak % 7 = 0
      then award_xp (award_xp { u with streak := u.streak + 1 } 10) 50
      else award_xp { u with streak := u.streak + 1 } 10) ?_ ?_
    · split
      · exact good_trans (good_award_xp 10 (by decide) rfl rfl)
          (good_award_xp 50 (by decide) rfl rfl)
      · exact good_award_xp 10 (by decide) rfl rfl
    · exact good_keep_gamification rfl rfl rfl
  · split
    · exact good_keep_gamification rfl rfl rfl
    · exact good_keep_gamification rfl rfl rfl

/-- Any single request relates every surviving user row to a same-id row of
the pre-state without losing xp or tier consistency. -/
theorem run_op_users_good (s : State) (op : Op) : users_good s (run_op s op) := by
  unfold run_op
  cases hop : apply_op s op
  case error => exact good_id
  case ok s' =>
    cases op <;> simp only [apply_op] at hop
    case deposit uid amount method =>
      rw [api_deposit_ok hop]
      exact good_update_user fun u => good_award_xp 5 (by decide) rfl rfl
    case withdraw uid amount =>
      obtain ⟨u, _, _, _, rfl⟩ := api_withdraw_ok hop
      exact good_update_user fun u => good_keep_gamification rfl rfl rfl
    case transfer uid idf desc cat amount =>
      obtain ⟨snd, rcv, _, _, _, _, _, _, rfl⟩ := api_transfer_ok hop
      apply good_map
      intro u
      dsimp only
      split
      · exact good_award_xp 15 (by decide) rfl rfl
      split
      · exact good_keep_gamification rfl rfl rfl
      · exact good_refl u
    case savingsCreate uid name target =>
      rw [api_savings_create_ok hop]
      exact good_update_user fun u => good_award_xp 20 (by decide) rfl rfl
    case savingsDeposit uid gid amount =>
      obtain ⟨u, g, _, _, _, _, rfl⟩ := api_savings_deposit_ok hop
      apply good_update_user
      intro v
      dsimp only
      split
      · exact good_trans (good_award_xp 10 (by decide) rfl rfl)
          (good_award_xp 100 (by decide) rfl rfl)
      · exact good_award_xp 10 (by decide) rfl rfl
    case savingsWithdraw uid gid amount =>
      obtain ⟨g, _, _, rfl⟩ := api_savings_withdraw_ok hop
      exact good_update_user fun u => good_keep_gamification rfl rfl rfl
    case savingsDelete uid gid =>
      obtain ⟨g, _, rfl⟩ := api_savings_delete_ok hop
      dsimp only
      split
      · exact good_update_user fun u => good_keep_gamification rfl rfl rfl
      · exact good_id
    case schedCreate uid idf amount freq nd desc =>
      obtain ⟨rcv, _, rfl⟩ := api_sched_create_ok hop
      exact good_update_user fun u => good_award_xp 10 (by decide) rfl rfl
    case schedDelete uid sid =>
      rw [api_sched_delete_ok hop]
      exact good_id
    case splitCreate uid title total members desc =>
      rw [api_split_create_ok hop]
      exact good_update_user fun u => good_award_xp 15 (by decide) rfl rfl
    case splitPay uid bid =>
      obtain ⟨mem, bill, payer, _, _, _, _, rfl⟩ := api_split_pay_ok hop
      apply good_map
      intro u
      dsimp only
      split
      · split
        · exact good_refl u
        · exact good_keep_gamification rfl rfl rfl
      split
      · exact good_keep_gamification rfl rfl rfl
      · exact good_refl u
    case contactAdd uid idf nick =>
      obtain ⟨u, _, _, rfl⟩ := api_contact_add_ok hop
      exact good_id
    case login uid today =>
      obtain ⟨u, _, rfl⟩ := api_login_ok hop
      exact good_update_user fun v => good_login_streak_upd today v
    case deleteAccount uid =>
      rw [api_delete_account_ok hop]
      exact good_filter

/-- Whole request sequences preserve the `good` relation. -/
theorem run_ops_users_good (s : State) (ops : List Op) :
    users_good s (run_ops s ops) := by
  induction ops generalizing s with
  | nil => exact good_id
  | cons op ops ih =>
    exact users_good_trans (run_op_users_good s op) (ih (run_op s op))

/-! ### Claims -/

/-- C8: across any sequence of operations no account's xp decreases, every
stored tier stays equal to the pure step function `tierOf` of the stored xp,
and `tierOf` realizes the break-point table, in particular 199 → bronze,
200 → silver, 799 → silver, 800 → gold. -/
theorem C8_xp_monotone_tier_consistent (ops : List Op) (s : State)
    (h : tier_consistent s) :
    (∀ v ∈ (run_ops s ops).users, ∃ u ∈ s.users, u.uid = v.uid ∧ u.xp ≤ v.xp) ∧
    tier_consistent (run_ops s ops) ∧
    tierOf 199 = "bronze" ∧ tierOf 200 = "silver" ∧ tierOf 799 = "silver" ∧
    tierOf 800 = "gold" ∧ tierOf 1999 = "gold" ∧ tierOf 2000 = "platinum" ∧
    tierOf 4999 = "platinum" ∧ tierOf 5000 = "diamond" := by
  have hg := run_ops_users_good s ops
  refine ⟨?_, ?_, by decide, by decide, by decide, by decide, by decide,
          by decide, by decide, by decide⟩
  · intro v hv
    rcases hg v hv with ⟨u, hu, huv⟩
    exact ⟨u, hu, huv.1.symm, huv.2.1⟩
  · intro v hv
    rcases hg v hv with ⟨u, hu, huv⟩
    exact huv.2.2 (h u hu)

/-- Witness for C8 at a concrete state and request sequence. -/
theorem C8_witness :
    tier_consistent (run_ops base2
      [Op.deposit 0 5 "UPI", Op.transfer 0 "b@x" "" "other" 1200]) :=
  (C8_xp_monotone_tier_consistent
    [Op.deposit 0 5 "UPI", Op.transfer 0 "b@x" "" "other" 1200] base2
    (by intro u hu
        simp only [base2, empty_state, mkUser, List.mem_cons,
                   List.not_mem_nil, or_false] at hu
        rcases hu with rfl | rfl <;> rfl)).2.1

theorem txn_map_frame {l : List User} {f : User → User}
    (hf : ∀ u, (f u).uid = u.uid ∧ (f u).total_txn_count = u.total_txn_count) :
    ∀ v ∈ l.map f, ∃ u ∈ l,
      u.uid = v.uid ∧ u.total_txn_count = v.total_txn_count := by
  intro v hv
  rcases List.mem_map.mp hv with ⟨u, hu, rfl⟩
  exact ⟨u, hu, (hf u).1.symm, (hf u).2.symm⟩

theorem txn_update_frame {l : List User} {uid : Nat} {f : User → User}
    (hf : ∀ u, (f u).uid = u.uid ∧ (f u).total_txn_count = u.total_txn_count) :
    ∀ v ∈ update_user l uid f, ∃ u ∈ l,
      u.uid = v.uid ∧ u.total_txn_count = v.total_txn_count := by
  unfold update_user
  apply txn_map_frame
  intro u
  dsimp only
  split
  · exact hf u
  · exact ⟨rfl, rfl⟩

/-- C10: Deposit, Withdraw, SavingsDeposit, SavingsWithdraw and
SettleSplitShare leave every account's `total_txn_count` unchanged; a
successful Transfer increments it by exactly one for the sender and one for
the recipient and leaves every other account's counter unchanged. -/
theorem C10_txn_count_frame :
    (∀ s s' uid amount method,
       api_deposit s uid amount method = .ok s' → txn_frame s s') ∧
    (∀ s s' uid amount, api_withdraw s uid amount = .ok s' → txn_frame s s') ∧
    (∀ s s' uid gid amount,
       api_savings_deposit s uid gid amount = .ok s' → txn_frame s s') ∧
    (∀ s s' uid gid amount,
       api_savings_withdraw s uid gid amount = .ok s' → txn_frame s s') ∧
    (∀ s s' uid bid, api_split_pay s uid bid = .ok s' → txn_frame s s') ∧
    (∀ s s' uid idf desc cat amount rcv,
       api_transfer s uid idf desc cat amount = .ok s' →
       resolve_identifier s idf = some rcv →
       ∀ v ∈ s'.users, ∃ u ∈ s.users, u.uid = v.uid ∧
         v.total_txn_count = u.total_txn_count +
           (if u.uid = uid ∨ u.uid = rcv.uid then 1 else 0)) := by
  refine ⟨?_, ?_, ?_, ?_, ?_, ?_⟩
  · intro s s' uid amount method h
    rw [api_deposit_ok h]
    exact txn_update_frame fun u => ⟨rfl, rfl⟩
  · intro s s' uid amount h
    obtain ⟨u, _, _, _, rfl⟩ := api_withdraw_ok h
    exact txn_update_frame fun u => ⟨rfl, rfl⟩
  · intro s s' uid gid amount h
    obtain ⟨u, g, _, _, _, _, rfl⟩ := api_savings_deposit_ok h
    apply txn_update_frame
    intro v
    dsimp only
    split
    · exact ⟨rfl, rfl⟩
    · exact ⟨rfl, rfl⟩
  · intro s s' uid gid amount h
    obtain ⟨g, _, _, rfl⟩ := api_savings_withdraw_ok h
    exact txn_update_frame fun u => ⟨rfl, rfl⟩
  · intro s s' uid bid h
    obtain ⟨mem, bill, payer, _, _, _, _, rfl⟩ := api_split_pay_ok h
    apply txn_map_frame
    intro u
    dsimp only
    split
    · split
      · exact ⟨rfl, rfl⟩
      · exact ⟨rfl, rfl⟩
    split
    · exact ⟨rfl, rfl⟩
    · exact ⟨rfl, rfl⟩
  · intro s s' uid idf desc cat amount rcv h hr
    obtain ⟨snd, rcv2, hsnd, hrcv2, hne, _, _, _, rfl⟩ := api_transfer_ok h
    rw [hr] at hrcv2
    cases Option.some.inj hrcv2
    intro v hv
    rcases List.mem_map.mp hv with ⟨u, hu, rfl⟩
    refine ⟨u, hu, ?_, ?_⟩
    · dsimp only
      split
      · rfl
      split
      · rfl
      · rfl
    · dsimp only
      by_cases h1 : u.uid = uid
      · simp [h1, transfer_sender_upd, award_xp]
      · by_cases h2 : u.uid = rcv.uid
        · simp [h1, h2, hne, transfer_receiver_upd]
        · simp [h1, h2]

/-- Witness for C10: a concrete deposit keeps the counters; a concrete
transfer bumps sender and recipient by one. -/
theorem C10_witness :
    txn_frame base2 (run_op base2 (Op.deposit 0 5 "UPI")) ∧
    (∀ v ∈ (run_op base2 (Op.transfer 0 "b@x" "" "other" 1200)).users,
       ∃ u ∈ base2.users, u.uid = v.uid ∧
         v.total_txn_count = u.total_txn_count +
           (if u.uid = 0 ∨ u.uid = (mkUser 1 "b@x" "LG1" 500).uid
            then 1 else 0)) := by
  constructor
  · exact C10_txn_count_frame.1 base2 _ 0 5 "UPI"
      (by norm_num [api_deposit, run_op, apply_op, base2, empty_state, mkUser,
                    find_user, update_user, award_xp, tierOf])
  · exact C10_txn_count_frame.2.2.2.2.2 base2 _ 0 "b@x" "" "other" 1200
      (mkUser 1 "b@x" "LG1" 500)
      (by norm_num [api_transfer, run_op, apply_op, base2, empty_state, mkUser,
                    find_user, resolve_identifier, update_user, award_xp, tierOf,
                    transfer_fee, round2, transfer_sender_upd,
                    transfer_receiver_upd]
          simp)
      (by simp [resolve_identifier, base2, empty_state, mkUser, List.find?])

/-- C3: for every Transfer that succeeds, the fee is `amount * 0.001` rounded
to currency precision when `amount` exceeds the 1000 fee-free threshold and 0
otherwise; the sender's balance decreases by exactly `amount + fee`, the
recipient's increases by exactly `amount`, every other balance is untouched,
and exactly one ledger entry is written, with both sender and receiver
populated and the fee recorded. -/
theorem C3_transfer_conservation (s s' : State) (uid : Nat)
    (idf desc cat : String) (amount fee : ℚ) (rcv : User)
    (hr : resolve_identifier s idf = some rcv)
    (hfee : fee = if amount > 1000 then round2 (amount * (1 / 1000)) else 0)
    (h : api_transfer s uid idf desc cat amount = .ok s') :
    (∃ t, s'.ledger = t :: s.ledger ∧ t.sender_id = some uid ∧
       t.receiver_id = some rcv.uid ∧ t.amount = amount ∧ t.fee = fee ∧
       t.txn_type = TxnType.transfer) ∧
    (∀ v ∈ s'.users, ∃ u ∈ s.users, u.uid = v.uid ∧
       (v.uid = uid → v.balance = u.balance - (amount + fee)) ∧
       (v.uid = rcv.uid → v.balance = u.balance + amount) ∧
       (v.uid ≠ uid → v.uid ≠ rcv.uid → v.balance = u.balance)) := by
  obtain ⟨snd, rcv2, hsnd, hrcv2, hne, _, _, _, rfl⟩ := api_transfer_ok h
  rw [hr] at hrcv2
  cases Option.some.inj hrcv2
  have hfee2 : fee = transfer_fee amount := hfee
  subst hfee2
  constructor
  · exact ⟨_, rfl, rfl, rfl, rfl, rfl, rfl⟩
  · intro v hv
    rcases List.mem_map.mp hv with ⟨u, hu, rfl⟩
    refine ⟨u, hu, ?_, ?_, ?_, ?_⟩
    · dsimp only
      split
      · rfl
      split
      · rfl
      · rfl
    · intro hvu
      by_cases h1 : u.uid = uid
      · rw [if_pos h1]
        simp [transfer_sender_upd, award_xp]
      · by_cases h2 : u.uid = rcv.uid
        · rw [if_neg h1, if_pos h2] at hvu
          exact absurd hvu h1
        · rw [if_neg h1, if_neg h2] at hvu
          exact absurd hvu h1
    · intro hvu
      by_cases h1 : u.uid = uid
      · rw [if_pos h1] at hvu
        exact absurd (hvu.symm.trans h1) hne
      · by_cases h2 : u.uid = rcv.uid
        · rw [if_neg h1, if_pos h2]
          simp [transfer_receiver_upd]
        · rw [if_neg h1, if_neg h2] at hvu
          exact absurd hvu h2
    · intro hvu1 hvu2
      by_cases h1 : u.uid = uid
      · rw [if_pos h1] at hvu1
        exact absurd h1 hvu1
      · by_cases h2 : u.uid = rcv.uid
        · rw [if_neg h1, if_pos h2] at hvu2
          exact absurd h2 hvu2
        · rw [if_neg h1, if_neg h2]

/-- Witness for C3: concrete scenario 3 — account 0 (balance 2000) transfers
1200 to account 1 (balance 500); fee 1.20, sender ends at 798.80, recipient
at 1700. -/
theorem C3_witness :
    (∃ t, (run_op base2 (Op.transfer 0 "b@x" "" "other" 1200)).ledger
            = t :: base2.ledger ∧ t.sender_id = some 0 ∧
          t.receiver_id = some (mkUser 1 "b@x" "LG1" 500).uid ∧
          t.amount = 1200 ∧ t.fee = 6 / 5 ∧ t.txn_type = TxnType.transfer) ∧
    (∀ v ∈ (run_op base2 (Op.transfer 0 "b@x" "" "other" 1200)).users,
       ∃ u ∈ base2.users, u.uid = v.uid ∧
         (v.uid = 0 → v.balance = u.balance - (1200 + 6 / 5)) ∧
         (v.uid = (mkUser 1 "b@x" "LG1" 500).uid → v.balance = u.balance + 1200) ∧
         (v.uid ≠ 0 → v.uid ≠ (mkUser 1 "b@x" "LG1" 500).uid →
            v.balance = u.balance)) :=
  C3_transfer_conservation base2 _ 0 "b@x" "" "other" 1200 (6 / 5)
    (mkUser 1 "b@x" "LG1" 500)
    (by simp [resolve_identifier, base2, empty_state, mkUser, List.find?])
    (by norm_num [round2])
    (by norm_num [api_transfer, run_op, apply_op, base2, empty_state, mkUser,
                  find_user, resolve_identifier, update_user, award_xp, tierOf,
                  transfer_fee, round2, transfer_sender_upd,
                  transfer_receiver_upd]
        simp)

@[simp] theorem award_xp_uid (u : User) (c : Int) : (award_xp u c).uid = u.uid := rfl

@[simp] theorem award_xp_balance (u : User) (c : Int) :
    (award_xp u c).balance = u.balance := rfl

@[simp] theorem award_xp_savings_balance (u : User) (c : Int) :
    (award_xp u c).savings_balance = u.savings_balance := rfl

@[simp] theorem award_xp_total_sent (u : User) (c : Int) :
    (award_xp u c).total_sent = u.total_sent := rfl

@[simp] theorem award_xp_total_received (u : User) (c : Int) :
    (award_xp u c).total_received = u.total_received := rfl

@[simp] theorem award_xp_total_txn_count (u : User) (c : Int) :
    (award_xp u c).total_txn_count = u.total_txn_count := rfl

@[simp] theorem award_xp_streak (u : User) (c : Int) :
    (award_xp u c).streak = u.streak := rfl

@[simp] theorem award_xp_last_login (u : User) (c : Int) :
    (award_xp u c).last_login = u.last_login := rfl

theorem sent_sum_cons (t : Txn) (l : List Txn) (uid : Nat) :
    sent_sum (t :: l) uid
      = (if t.sender_id = some uid then t.amount else 0) + sent_sum l uid := by
  unfold sent_sum
  rw [List.filter_cons]
  by_cases hb : t.sender_id = some uid
  · rw [if_pos (by simpa using hb), if_pos hb]
    simp
  · rw [if_neg (by simpa using hb), if_neg hb]
    simp

theorem recv_sum_cons (t : Txn) (l : List Txn) (uid : Nat) :
    recv_sum (t :: l) uid
      = (if t.receiver_id = some uid then t.amount else 0) + recv_sum l uid := by
  unfold recv_sum
  rw [List.filter_cons]
  by_cases hb : t.receiver_id = some uid
  · rw [if_pos (by simpa using hb), if_pos hb]
    simp
  · rw [if_neg (by simpa using hb), if_neg hb]
    simp

theorem reconciled_deposit {s s' : State} {uid : Nat} {amount : ℚ}
    {method : String} (h : api_deposit s uid amount method = .ok s')
    (hr : reconciled s) : reconciled s' := by
  rw [api_deposit_ok h]
  intro v hv
  rcases List.mem_map.mp hv with ⟨u, hu, rfl⟩
  obtain ⟨hsent, hrecv⟩ := hr u hu
  dsimp only
  by_cases h1 : u.uid = uid
  · rw [if_pos h1]
    constructor
    · rw [sent_sum_cons]
      simp [hsent]
    · rw [recv_sum_cons]
      simp [hrecv, h1, add_comm]
  · rw [if_neg h1]
    constructor
    · rw [sent_sum_cons, if_neg (by simp), hsent, zero_add]
    · rw [recv_sum_cons,
          if_neg (by simp only [Option.some.injEq]; exact Ne.symm h1),
          hrecv, zero_add]

theorem reconciled_withdraw {s s' : State} {uid : Nat} {amount : ℚ}
    (h : api_withdraw s uid amount = .ok s') (hr : reconciled s) :
    reconciled s' := by
  obtain ⟨w, _, _, _, rfl⟩ := api_withdraw_ok h
  intro v hv
  rcases List.mem_map.mp hv with ⟨u, hu, rfl⟩
  obtain ⟨hsent, hrecv⟩ := hr u hu
  dsimp only
  by_cases h1 : u.uid = uid
  · rw [if_pos h1]
    constructor
    · rw [sent_sum_cons]
      simp [hsent, h1, add_comm]
    · rw [recv_sum_cons]
      simp [hrecv]
  · rw [if_neg h1]
    constructor
    · rw [sent_sum_cons,
          if_neg (by simp only [Option.some.injEq]; exact Ne.symm h1),
          hsent, zero_add]
    · rw [recv_sum_cons, if_neg (by simp), hrecv, zero_add]

theorem reconciled_transfer {s s' : State} {uid : Nat}
    {idf desc cat : String} {amount : ℚ}
    (h : api_transfer s uid idf desc cat amount = .ok s') (hr : reconciled s) :
    reconciled s' := by
  obtain ⟨snd, rcv, hsnd, hrcv, hne, _, _, _, rfl⟩ := api_transfer_ok h
  intro v hv
  rcases List.mem_map.mp hv with ⟨u, hu, rfl⟩
  obtain ⟨hsent, hrecv2⟩ := hr u hu
  dsimp only
  by_cases h1 : u.uid = uid
  · rw [if_pos h1]
    constructor
    · rw [sent_sum_cons]
      simp [transfer_sender_upd, hsent, h1, add_comm]
    · rw [recv_sum_cons]
      have : ¬ (some rcv.uid = some uid) := by simpa using hne
      simp [transfer_sender_upd, hrecv2, h1, this]
  · by_cases h2 : u.uid = rcv.uid
    · rw [if_neg h1, if_pos h2]
      constructor
      · rw [sent_sum_cons]
        have : ¬ (some uid = some rcv.uid) := by simpa using (Ne.symm hne)
        simp [transfer_receiver_upd, hsent, h2, this]
      · rw [recv_sum_cons]
        simp [transfer_receiver_upd, hrecv2, h2, add_comm]
    · rw [if_neg h1, if_neg h2]
      constructor
      · rw [sent_sum_cons,
            if_neg (by simp only [Option.some.injEq]; exact Ne.symm h1),
            hsent, zero_add]
      · rw [recv_sum_cons,
            if_neg (by simp only [Option.some.injEq]; exact Ne.symm h2),
            hrecv2, zero_add]


theorem reconciled_run_op_dwt {s : State} {op : Op} (hop : dwt_op op)
    (hs : reconciled s) : reconciled (run_op s op) := by
  unfold run_op
  cases h : apply_op s op
  case error => exact hs
  case ok s' =>
    cases op <;> simp only [apply_op] at h
    case deposit => exact reconciled_deposit h hs
    case withdraw => exact reconciled_withdraw h hs
    case transfer => exact reconciled_transfer h hs
    all_goals exact hop.elim

/-- C1 (amended): across any sequence of Deposit, Withdraw and Transfer
requests, every account's `total_sent` equals the sum of `amount` over
ledger entries where it is the sender and `total_received` the sum where it
is the receiver.  (SavingsDeposit and SettleSplitShare are excluded: they
write ledger entries without updating the running totals — see
`C1_cex`.) -/
theorem C1_reconciliation_dwt (ops : List Op) (s : State)
    (hops : ∀ op ∈ ops, dwt_op op) (hs : reconciled s) :
    reconciled (run_ops s ops) := by
  induction ops generalizing s with
  | nil => exact hs
  | cons op ops ih =>
    exact ih (run_op s op) (fun o ho => hops o (List.mem_cons_of_mem _ ho))
      (reconciled_run_op_dwt (hops op (List.mem_cons_self _ _)) hs)

/-- Witness for C1 at a concrete deposit/transfer/withdraw sequence. -/
theorem C1_witness :
    reconciled (run_ops base2
      [Op.deposit 0 40 "UPI", Op.transfer 0 "b@x" "" "other" 1200,
       Op.withdraw 1 30]) :=
  C1_reconciliation_dwt _ base2
    (by intro o ho
        simp only [List.mem_cons, List.not_mem_nil, or_false] at ho
        rcases ho with rfl | rfl | rfl <;> trivial)
    (by intro u hu
        simp only [base2, empty_state, mkUser, List.mem_cons,
                   List.not_mem_nil, or_false] at hu
        rcases hu with rfl | rfl <;>
          simp [sent_sum, recv_sum, base2, empty_state, mkUser])

/-- Counterexample to C1 as stated: a successful SavingsDeposit and a
successful SettleSplitShare each leave a state in which the running totals
disagree with the ledger sums. -/
theorem C1_cex :
    op_ok goal900 (Op.savingsDeposit 0 1 100) = true ∧
    ¬ reconciled (run_op goal900 (Op.savingsDeposit 0 1 100)) ∧
    op_ok bill_state (Op.splitPay 1 1) = true ∧
    ¬ reconciled (run_op bill_state (Op.splitPay 1 1)) := by
  refine ⟨?_, ?_, ?_, ?_⟩
  · norm_num [op_ok, apply_op, api_savings_deposit, goal900, empty_state, mkUser,
              find_user, find_goal, update_user, award_xp, tierOf]
  · intro hrec
    have hmem : ({ uid := 0, username := "a@x", email := "a@x",
                   account_number := "LG0", balance := 400,
                   savings_balance := 100, tier := "bronze", xp := 110,
                   streak := 0, last_login := none, total_sent := 0,
                   total_received := 0, total_txn_count := 0 } : User)
        ∈ (run_op goal900 (Op.savingsDeposit 0 1 100)).users := by
      norm_num [run_op, apply_op, api_savings_deposit, goal900, empty_state,
                mkUser, find_user, find_goal, update_user, award_xp, tierOf]
    have h0 := (hrec _ hmem).1
    norm_num [run_op, apply_op, api_savings_deposit, goal900, empty_state,
              mkUser, find_user, find_goal, update_user, award_xp, tierOf,
              sent_sum] at h0
  · norm_num [op_ok, apply_op, api_split_pay, bill_state, empty_state, mkUser,
              find_user, update_user]
  · intro hrec
    have hmem : (mkUser 1 "b@x" "LG1" 50)
        ∈ (run_op bill_state (Op.splitPay 1 1)).users := by
      norm_num [run_op, apply_op, api_split_pay, bill_state, empty_state,
                mkUser, find_user, update_user]
    have h0 := (hrec _ hmem).1
    norm_num [run_op, apply_op, api_split_pay, bill_state, empty_state, mkUser,
              find_user, update_user, sent_sum] at h0

/-- C2 (code evaluated at the failing input): `api_savings_withdraw` has no
positivity check on `amount`, so a withdrawal of -100 from a goal with
`current = 0` commits and drives the balance of an account holding 0 down to
-100 < 0. -/
theorem C2_savings_withdraw_negative_balance :
    op_ok empty_goal_state (Op.savingsWithdraw 0 1 (-100)) = true ∧
    (run_op empty_goal_state (Op.savingsWithdraw 0 1 (-100))).users.map
      User.balance = [-100] ∧ (-100 : ℚ) < 0 := by
  refine ⟨?_, ?_, by norm_num⟩
  · norm_num [op_ok, apply_op, api_savings_withdraw, empty_goal_state,
              empty_state, mkUser, find_user, find_goal, update_user]
  · norm_num [run_op, apply_op, api_savings_withdraw, empty_goal_state,
              empty_state, mkUser, find_user, find_goal, update_user]

/-- C4 (amended): a successful SavingsDeposit emits the milestone
notification and awards the 100 bonus xp exactly when the updated
`goal.current` (old current + amount) is ≥ `goal.target` — including
repeat deposits into an already-met goal; the depositor's xp rises by
`10 + 100` on such deposits and by `10` otherwise. -/
theorem C4_milestone_on_every_met_deposit (s s' : State) (uid gid : Nat)
    (amount : ℚ) (g : SavingsGoal) (hg : find_goal s gid uid = some g)
    (h : api_savings_deposit s uid gid amount = .ok s') :
    milestone_count s' uid
      = milestone_count s uid
        + (if g.current + amount ≥ g.target then 1 else 0) ∧
    (∀ v ∈ s'.users, ∃ u ∈ s.users, u.uid = v.uid ∧ (v.uid = uid →
       v.xp = u.xp + (10 + (if g.current + amount ≥ g.target then 100 else 0)))) := by
  obtain ⟨u0, g0, hu0, hg0, _, _, rfl⟩ := api_savings_deposit_ok h
  rw [hg] at hg0
  cases Option.some.inj hg0
  constructor
  · unfold milestone_count
    dsimp only
    by_cases hm : g.current + amount ≥ g.target
    · rw [if_pos hm, if_pos hm, List.filter_cons]
      simp
    · rw [if_neg hm, if_neg hm, add_zero]
  · intro v hv
    rcases List.mem_map.mp hv with ⟨u, hu, rfl⟩
    refine ⟨u, hu, ?_, ?_⟩
    · dsimp only
      by_cases h1 : u.uid = uid
      · rw [if_pos h1]
        split <;> simp
      · rw [if_neg h1]
    · intro hvu
      dsimp only at hvu ⊢
      by_cases h1 : u.uid = uid
      · rw [if_pos h1]
        by_cases hm : g.current + amount ≥ g.target
        · rw [if_pos hm, if_pos hm]
          simp [award_xp]
          omega
        · rw [if_neg hm, if_neg hm]
          simp [award_xp]
      · rw [if_neg h1] at hvu
        exact absurd hvu h1


/-- Counterexample to C4 as stated (concrete scenario 4): with target 1000
and current 900, depositing 100 emits the milestone once, and a subsequent
deposit of 50 re-emits it (stored count becomes 2), contrary to the claimed
exactly-once behaviour. -/
theorem C4_cex :
    op_ok goal900 (Op.savingsDeposit 0 1 100) = true ∧
    milestone_count (run_op goal900 (Op.savingsDeposit 0 1 100)) 0 = 1 ∧
    op_ok (run_op goal900 (Op.savingsDeposit 0 1 100))
      (Op.savingsDeposit 0 1 50) = true ∧
    milestone_count
      (run_ops goal900 [Op.savingsDeposit 0 1 100, Op.savingsDeposit 0 1 50])
      0 = 2 := by
  refine ⟨?_, ?_, ?_, ?_⟩ <;>
    norm_num [op_ok, run_ops, run_op, apply_op, api_savings_deposit, goal900,
              empty_state, mkUser, find_user, find_goal, update_user, award_xp,
              tierOf, milestone_count]

/-- Witness for C4 at the concrete scenario-4 state. -/
theorem C4_witness :
    milestone_count (run_op goal900 (Op.savingsDeposit 0 1 100)) 0
      = milestone_count goal900 0
        + (if (900 : ℚ) + 100 ≥ 1000 then 1 else 0) ∧
    (∀ v ∈ (run_op goal900 (Op.savingsDeposit 0 1 100)).users,
       ∃ u ∈ goal900.users, u.uid = v.uid ∧ (v.uid = 0 →
         v.xp = u.xp + (10 + (if (900 : ℚ) + 100 ≥ 1000 then 100 else 0)))) :=
  C4_milestone_on_every_met_deposit goal900 _ 0 1 100
    { gid := 1, user_id := 0, name := "trip", target := 1000, current := 900 }
    (by simp [find_goal, goal900, empty_state, List.find?])
    (by norm_num [run_op, apply_op, api_savings_deposit, goal900, empty_state,
                  mkUser, find_user, find_goal, update_user, award_xp, tierOf])

/-- C5 (amended): after DeleteAccount, no surviving user, ledger entry,
split-bill member row, savings goal, notification, owned contact or
sender-side scheduled payment references the deleted account — but split
bills it created survive unchanged, and other accounts' contact rows and
receiver-side scheduled payments (which may reference it) are kept
verbatim. -/
theorem C5_delete_account_cleanup (s s' : State) (uid : Nat)
    (h : api_delete_account s uid = .ok s') :
    (∀ u ∈ s'.users, u.uid ≠ uid) ∧
    (∀ t ∈ s'.ledger, t.receiver_id ≠ some uid ∧ t.sender_id ≠ some uid) ∧
    (∀ m ∈ s'.bill_members, m.user_id ≠ uid) ∧
    (∀ g ∈ s'.goals, g.user_id ≠ uid) ∧
    (∀ n ∈ s'.notifs, n.user_id ≠ uid) ∧
    (∀ c ∈ s'.contacts, c.user_id ≠ uid) ∧
    (∀ p ∈ s'.scheduled, p.sender_id ≠ uid) ∧
    s'.bills = s.bills ∧
    (∀ c ∈ s.contacts, c.user_id ≠ uid → c ∈ s'.contacts) ∧
    (∀ p ∈ s.scheduled, p.sender_id ≠ uid → p ∈ s'.scheduled) := by
  rw [api_delete_account_ok h]
  refine ⟨?_, ?_, ?_, ?_, ?_, ?_, ?_, rfl, ?_, ?_⟩
  · intro u hu
    simpa using List.of_mem_filter hu
  · intro t ht
    simpa using List.of_mem_filter ht
  · intro m hm
    simpa using List.of_mem_filter hm
  · intro g hg
    simpa using List.of_mem_filter hg
  · intro n hn
    simpa using List.of_mem_filter hn
  · intro c hc
    simpa using List.of_mem_filter hc
  · intro p hp
    simpa using List.of_mem_filter hp
  · intro c hc hne
    exact List.mem_filter.mpr ⟨hc, by simpa using hne⟩
  · intro p hp hne
    exact List.mem_filter.mpr ⟨hp, by simpa using hne⟩

/-- Counterexample to C5 as stated: deleting account 0 leaves another
account's Contact row with `contact_id = 0`, a ScheduledPayment with
`receiver_id = 0`, and a SplitBill with `creator_id = 0` in place. -/
theorem C5_cex :
    op_ok delete_state (Op.deleteAccount 0) = true ∧
    (∃ c ∈ (run_op delete_state (Op.deleteAccount 0)).contacts,
       c.contact_id = 0) ∧
    (∃ p ∈ (run_op delete_state (Op.deleteAccount 0)).scheduled,
       p.receiver_id = 0) ∧
    (∃ b ∈ (run_op delete_state (Op.deleteAccount 0)).bills,
       b.creator_id = 0) := by
  refine ⟨?_, ?_, ?_, ?_⟩ <;>
    norm_num [op_ok, run_op, apply_op, api_delete_account, delete_state,
              empty_state, mkUser, find_user]

/-- Witness for C5 at the concrete deletion state. -/
theorem C5_witness :
    (∀ c ∈ (run_op delete_state (Op.deleteAccount 0)).contacts,
       c.user_id ≠ 0) ∧
    (∀ m ∈ (run_op delete_state (Op.deleteAccount 0)).bill_members,
       m.user_id ≠ 0) :=
  ⟨(C5_delete_account_cleanup delete_state _ 0
      (by norm_num [run_op, apply_op, api_delete_account, delete_state,
                    empty_state, mkUser, find_user])).2.2.2.2.2.1,
   (C5_delete_account_cleanup delete_state _ 0
      (by norm_num [run_op, apply_op, api_delete_account, delete_state,
                    empty_state, mkUser, find_user])).2.2.1⟩


/-- The streak transition never changes the user id. -/
theorem login_streak_upd_uid (today : Int) (v : User) :
    (login_streak_upd today v).uid = v.uid := by
  unfold login_streak_upd
  split
  · dsimp only
    split <;> rfl
  split <;> rfl

/-- C6 (amended): the login-streak transition increments the streak on a
consecutive day (10 xp, plus 50 bonus xp and one 7-day milestone
notification exactly when the new streak is a multiple of 7), leaves streak
and xp unchanged on a same-day repeat, and in every other case — including
a stored date in the FUTURE of `today` — resets the streak to 1 without
rejecting the input; `last_login` is always set to `today`. -/
theorem C6_streak_transition (s s' : State) (uid : Nat) (today : Int)
    (u : User) (hu : find_user s uid = some u)
    (h : api_login s uid today = .ok s') :
    (streak_milestone_count s' uid
       = streak_milestone_count s uid
         + (if u.last_login = some (today - 1) ∧ (u.streak + 1) % 7 = 0
            then 1 else 0)) ∧
    ∀ v ∈ s'.users, ∃ w ∈ s.users, w.uid = v.uid ∧
      (w.uid ≠ uid → v = w) ∧
      (w.uid = uid →
        v.last_login = some today ∧
        (w.last_login = some (today - 1) →
           v.streak = w.streak + 1 ∧
           v.xp = w.xp + 10 + (if (w.streak + 1) % 7 = 0 then 50 else 0)) ∧
        (w.last_login = some today →
           v.streak = w.streak ∧ v.xp = w.xp) ∧
        (w.last_login ≠ some (today - 1) → w.last_login ≠ some today →
           v.streak = 1 ∧ v.xp = w.xp)) := by
  obtain ⟨u0, hu0, rfl⟩ := api_login_ok h
  rw [hu] at hu0
  cases Option.some.inj hu0
  constructor
  · unfold streak_milestone_count
    dsimp only
    by_cases hc : u.last_login = some (today - 1) ∧ (u.streak + 1) % 7 = 0
    · rw [if_pos hc, if_pos hc, List.filter_cons]
      simp
    · rw [if_neg hc, if_neg hc, add_zero]
  intro v hv
  rcases List.mem_map.mp hv with ⟨w, hw, rfl⟩
  by_cases h1 : w.uid = uid
  · rw [if_pos h1]
    refine ⟨w, hw, (login_streak_upd_uid today w).symm ▸ h1 ▸ rfl, ?_, ?_⟩
    · intro hne
      exact absurd h1 hne
    · intro _
      unfold login_streak_upd
      by_cases hy : w.last_login = some (today - 1)
      · rw [if_pos hy]
        dsimp only
        refine ⟨rfl, ?_, ?_, ?_⟩
        · intro _
          constructor
          · split <;> simp [award_xp]
          · by_cases h7 : (w.streak + 1) % 7 = 0
            · rw [if_pos h7]
              rw [if_pos (by simpa [award_xp] using h7)]
              simp [award_xp]
            · rw [if_neg h7]
              rw [if_neg (by simpa [award_xp] using h7)]
              simp [award_xp]
        · intro htoday
          exact absurd (hy.symm.trans htoday) (by simp)
        · intro hny _
          exact absurd hy hny
      · rw [if_neg hy]
        by_cases ht : w.last_login = some today
        · rw [if_neg (by simp [ht])]
          refine ⟨rfl, ?_, ?_, ?_⟩
          · intro hy2
            exact absurd hy2 hy
          · intro _
            exact ⟨rfl, rfl⟩
          · intro _ htn
            exact absurd ht htn
        · rw [if_pos ht]
          refine ⟨rfl, ?_, ?_, ?_⟩
          · intro hy2
            exact absurd hy2 hy
          · intro ht2
            exact absurd ht2 ht
          · intro _ _
            exact ⟨rfl, rfl⟩
  · rw [if_neg h1]
    exact ⟨w, hw, rfl, fun _ => rfl, fun h2 => absurd h2 h1⟩


/-- Counterexample to C6 as stated: with stored `last_login` = day 10 and
`today` = day 5, the login is not rejected — it commits, resets the streak
to 1 and moves `last_login` backwards to day 5. -/
theorem C6_cex :
    op_ok future_login_state (Op.login 0 5) = true ∧
    (run_op future_login_state (Op.login 0 5)).users.map
      (fun u => (u.streak, u.last_login)) = [(1, some 5)] := by
  refine ⟨?_, ?_⟩ <;>
    norm_num [op_ok, run_op, apply_op, api_login, future_login_state,
              future_user, empty_state, mkUser, find_user, update_user,
              login_streak_upd, award_xp, tierOf]

/-- Witness for C6 at the concrete future-dated state. -/
theorem C6_witness :
    ((streak_milestone_count (run_op future_login_state (Op.login 0 5)) 0
       = streak_milestone_count future_login_state 0
         + (if future_user.last_login = some (5 - 1) ∧
               (future_user.streak + 1) % 7 = 0 then 1 else 0)) ∧
    (∀ v ∈ (run_op future_login_state (Op.login 0 5)).users,
      ∃ w ∈ future_login_state.users, w.uid = v.uid ∧
        (w.uid ≠ 0 → v = w) ∧
        (w.uid = 0 →
          v.last_login = some 5 ∧
          (w.last_login = some (5 - 1) →
             v.streak = w.streak + 1 ∧
             v.xp = w.xp + 10 + (if (w.streak + 1) % 7 = 0 then 50 else 0)) ∧
          (w.last_login = some 5 →
             v.streak = w.streak ∧ v.xp = w.xp) ∧
          (w.last_login ≠ some (5 - 1) → w.last_login ≠ some 5 →
             v.streak = 1 ∧ v.xp = w.xp)))) ∧
    (streak_milestone_count (run_op streak6_state (Op.login 0 5)) 0
       = streak_milestone_count streak6_state 0
         + (if streak6_user.last_login = some (5 - 1) ∧
               (streak6_user.streak + 1) % 7 = 0 then 1 else 0)) :=
  ⟨C6_streak_transition future_login_state _ 0 5 future_user
    (by simp [find_user, future_login_state, future_user, empty_state,
              List.find?])
    (by norm_num [run_op, apply_op, api_login, future_login_state, future_user,
                  empty_state, mkUser, find_user, update_user,
                  login_streak_upd, award_xp, tierOf]),
   (C6_streak_transition streak6_state _ 0 5 streak6_user
    (by simp [find_user, streak6_state, streak6_user, empty_state,
              List.find?])
    (by norm_num [run_op, apply_op, api_login, streak6_state, streak6_user,
                  empty_state, mkUser, find_user, update_user,
                  login_streak_upd, award_xp, tierOf])).1⟩


/-- Counterexample to C7 as stated: the 1500 transfer from a balance of
1000 is rejected with the insufficient-balance error (1000 < 1501.50
including the 1.50 fee), not with LimitExceeded (the single-transfer limit
is 50000). -/
theorem C7_cex :
    api_transfer fresh1000 0 "b@x" "" "other" 1500
      = .error .insufficientBalance ∧
    Err.insufficientBalance ≠ Err.limitExceeded := by
  constructor
  · norm_num [api_transfer, fresh1000, empty_state, mkUser, find_user,
              resolve_identifier, transfer_fee, round2]
    simp
  · decide

/-- C7 (amended): for a fresh account with balance 1000.00, a Transfer of
1500 to a valid distinct recipient is rejected — with `InsufficientFunds`
(1000 < 1501.50 incl. fee), not `LimitExceeded` — and the state, in
particular the sender's balance, is unchanged. -/
theorem C7_rejected_insufficient :
    api_transfer fresh1000 0 "b@x" "" "other" 1500
      = .error .insufficientBalance ∧
    run_ops fresh1000 [Op.transfer 0 "b@x" "" "other" 1500] = fresh1000 := by
  constructor
  · norm_num [api_transfer, fresh1000, empty_state, mkUser, find_user,
              resolve_identifier, transfer_fee, round2]
    simp
  · norm_num [run_ops, run_op, apply_op, api_transfer, fresh1000, empty_state,
              mkUser, find_user, resolve_identifier, transfer_fee, round2]
    simp


/-- C9 (amended): every successful CreateSplitBill creates the creator's
member entry with `amount_owed = 0` and `paid = true`, and one unpaid entry
per resolved participant carrying the REQUESTED amount verbatim — there is
no non-negativity check, so `amount_owed ≥ 0` holds exactly when the
requested amounts are non-negative. -/
theorem C9_split_create_members (s s' : State) (uid : Nat) (title : String)
    (total : ℚ) (members : List MemberReq) (desc : String)
    (h : api_split_create s uid title total members desc = .ok s') :
    s'.bill_members
      = ({ bill_id := s.next_bill_id, user_id := uid, amount_owed := 0,
           paid := true } : SplitBillMember)
        :: (members.filterMap (fun m =>
             (resolve_identifier s m.identifier).map (fun u =>
               ({ bill_id := s.next_bill_id, user_id := u.uid,
                  amount_owed := m.amount, paid := false } : SplitBillMember))))
        ++ s.bill_members ∧
    ((∀ m ∈ members, 0 ≤ m.amount) →
       ∀ e ∈ s'.bill_members, e ∈ s.bill_members ∨ 0 ≤ e.amount_owed) := by
  rw [api_split_create_ok h]
  refine ⟨rfl, ?_⟩
  intro hpos e he
  simp only [List.cons_append, List.mem_cons, List.mem_append] at he
  rcases he with rfl | he | he
  · right
    norm_num
  · rcases List.mem_filterMap.mp he with ⟨m, hm, hmap⟩
    right
    cases hr : resolve_identifier s m.identifier with
    | none => rw [hr] at hmap; cases hmap
    | some u =>
      rw [hr] at hmap
      cases Option.some.inj hmap
      exact hpos m hm
  · left
    exact he

/-- Counterexample to C9 as stated: a split bill created with a member
amount of -50 commits and stores a member entry with `amount_owed < 0`. -/
theorem C9_cex :
    op_ok base2 (Op.splitCreate 0 "dinner" 50
      [{ identifier := "b@x", amount := -50 }] "") = true ∧
    (∃ e ∈ (run_op base2 (Op.splitCreate 0 "dinner" 50
        [{ identifier := "b@x", amount := -50 }] "")).bill_members,
       e.amount_owed < 0) := by
  constructor
  · norm_num [op_ok, run_op, apply_op, api_split_create, base2, empty_state,
              mkUser, find_user, resolve_identifier, update_user, award_xp,
              tierOf, List.filterMap]
    simp
  · norm_num [op_ok, run_op, apply_op, api_split_create, base2, empty_state,
              mkUser, find_user, resolve_identifier, update_user, award_xp,
              tierOf, List.filterMap]
    simp

/-- Witness for C9 at a concrete bill with a non-negative member amount. -/
theorem C9_witness :
    (run_op base2 (Op.splitCreate 0 "dinner" 50
        [{ identifier := "b@x", amount := 50 }] "")).bill_members
      = ({ bill_id := base2.next_bill_id, user_id := 0, amount_owed := 0,
           paid := true } : SplitBillMember)
        :: (([{ identifier := "b@x", amount := 50 }] : List MemberReq).filterMap
             (fun m => (resolve_identifier base2 m.identifier).map (fun u =>
               ({ bill_id := base2.next_bill_id, user_id := u.uid,
                  amount_owed := m.amount, paid := false } : SplitBillMember))))
        ++ base2.bill_members ∧
    (∀ e ∈ (run_op base2 (Op.splitCreate 0 "dinner" 50
        [{ identifier := "b@x", amount := 50 }] "")).bill_members,
       e ∈ base2.bill_members ∨ 0 ≤ e.amount_owed) := by
  have h := C9_split_create_members base2
    (run_op base2 (Op.splitCreate 0 "dinner" 50
      [{ identifier := "b@x", amount := 50 }] "")) 0 "dinner" 50
    [{ identifier := "b@x", amount := 50 }] ""
    (by norm_num [run_op, apply_op, api_split_create, base2, empty_state,
                  mkUser, find_user, resolve_identifier, update_user, award_xp,
                  tierOf]
        simp)
  exact ⟨h.1, h.2 (by norm_num)⟩

end LiquidGold
